import Mathlib

/- Verification of the Quorlin compiler core: a shallow embedding of the
   lexer indentation processor, the semantic analyzer's type checking, the
   security pass, and the EVM/Yul code generator, with theorems checking the
   specification's claims against the embedded code. -/

set_option maxRecDepth 10000

namespace Quorlin

/- ===== AST (crates/quorlin-parser/src/ast.rs) ===== -/

/- `Type` in ast.rs; renamed `Ty` to avoid the Lean keyword. -/
inductive Ty where
  | simple (name : String)
  | list (t : Ty)
  | fixedArray (t : Ty) (n : Nat)
  | mapping (k : Ty) (v : Ty)
  | optionalTy (t : Ty)
  | tuple (ts : List Ty)

inductive BinOp where
  | add | sub | mul | div | floorDiv | mod | pow
  | eq | notEq | lt | ltEq | gt | gtEq
  | and | or
deriving DecidableEq

inductive UnaryOp where
  | not | neg | pos
deriving DecidableEq

inductive Expr where
  | intLiteral (s : String)
  | hexLiteral (s : String)
  | stringLiteral (s : String)
  | boolLiteral (b : Bool)
  | noneLiteral
  | ident (name : String)
  | binOp (l : Expr) (op : BinOp) (r : Expr)
  | unaryOp (op : UnaryOp) (e : Expr)
  | call (callee : Expr) (args : List Expr)
  | attribute (base : Expr) (name : String)
  | index (base : Expr) (idx : Expr)
  | listE (elems : List Expr)
  | tupleE (elems : List Expr)
  | ifExp (test : Expr) (body : Expr) (orelse : Expr)

inductive AugAssignOp where
  | add | sub | mul | div
deriving DecidableEq

/- Statements; the payload structs (AssignStmt, IfStmt, ForStmt, WhileStmt,
   RequireStmt, EmitStmt, RaiseStmt) are flattened into constructor fields in
   source order. `type_annotation` is the second field of `assign`. -/
inductive Stmt where
  | assign (target : Expr) (tyAnnot : Option Ty) (value : Expr)
  | augAssign (target : String) (op : AugAssignOp) (value : Expr)
  | exprS (e : Expr)
  | ret (value : Option Expr)
  | pass
  | brk
  | cont
  | ifS (condition : Expr) (thenBranch : List Stmt)
        (elifBranches : List (Expr × List Stmt)) (elseBranch : Option (List Stmt))
  | forS (var : String) (iterable : Expr) (body : List Stmt)
  | whileS (condition : Expr) (body : List Stmt)
  | requireS (condition : Expr) (message : Option String)
  | revertS (msg : String)
  | emitS (event : String) (args : List Expr)
  | raiseS (errName : String) (args : List Expr)

structure Param where
  name : String
  ty : Ty
  default : Option Expr

/- `Function` in ast.rs. -/
structure FunctionDecl where
  name : String
  decorators : List String
  params : List Param
  retTy : Option Ty
  body : List Stmt
  docstring : Option String

structure StateVar where
  name : String
  ty : Ty
  initialValue : Option Expr

structure ConstantDecl where
  name : String
  ty : Ty
  value : Expr

inductive ContractMember where
  | stateVar (v : StateVar)
  | func (f : FunctionDecl)
  | constant (c : ConstantDecl)

structure ContractDecl where
  name : String
  bases : List String
  body : List ContractMember
  docstring : Option String

structure EventParam where
  name : String
  ty : Ty
  indexed : Bool

structure EventDecl where
  name : String
  params : List EventParam

structure ImportDecl where
  module : String
  items : List String

inductive Item where
  | importI (i : ImportDecl)
  | contractI (c : ContractDecl)
  | eventI (e : EventDecl)

structure Module where
  items : List Item

/- ===== Type checker (crates/quorlin-semantics/src/type_checker.rs) ===== -/

namespace TypeChecker

/- `is_numeric_type` -/
def isNumericType (ty : String) : Bool :=
  ty == "uint8" || ty == "uint16" || ty == "uint32" || ty == "uint64"
    || ty == "uint128" || ty == "uint256"
    || ty == "int8" || ty == "int16" || ty == "int32" || ty == "int64"
    || ty == "int128" || ty == "int256"

/- `get_type_size` -/
def getTypeSize (ty : String) : Nat :=
  if ty == "uint8" || ty == "int8" then 8
  else if ty == "uint16" || ty == "int16" then 16
  else if ty == "uint32" || ty == "int32" then 32
  else if ty == "uint64" || ty == "int64" then 64
  else if ty == "uint128" || ty == "int128" then 128
  else if ty == "uint256" || ty == "int256" then 256
  else 0

/- `can_promote`: `from` promotes to `to` iff size(from) ≤ size(to). -/
def canPromote (fromTy : String) (toTy : String) : Bool :=
  getTypeSize fromTy ≤ getTypeSize toTy

/- `types_compatible(expected, found)` -/
def typesCompatible : Ty → Ty → Bool
  | .simple e, .simple f =>
      if e == f then true
      else if isNumericType e && isNumericType f then canPromote f e
      else false
  | .list e, .list f => typesCompatible e f
  | .mapping ek ev, .mapping fk fv =>
      typesCompatible ek fk && typesCompatible ev fv
  | _, _ => false

end TypeChecker

/- ===== Structural equality (PartialEq derive on Type) ===== -/

mutual

def tyEq : Ty → Ty → Bool
  | .simple a, .simple b => a == b
  | .list a, .list b => tyEq a b
  | .fixedArray a m, .fixedArray b n => tyEq a b && m == n
  | .mapping ak av, .mapping bk bv => tyEq ak bk && tyEq av bv
  | .optionalTy a, .optionalTy b => tyEq a b
  | .tuple xs, .tuple ys => tyListEq xs ys
  | _, _ => false

def tyListEq : List Ty → List Ty → Bool
  | [], [] => true
  | a :: xs, b :: ys => tyEq a b && tyListEq xs ys
  | _, _ => false

end

/- ===== Debug formatting used in error messages (derive(Debug)) ===== -/

def quoteStr (s : String) : String := "\"" ++ s ++ "\""

def reprBinOp : BinOp → String
  | .add => "Add" | .sub => "Sub" | .mul => "Mul" | .div => "Div"
  | .floorDiv => "FloorDiv" | .mod => "Mod" | .pow => "Pow"
  | .eq => "Eq" | .notEq => "NotEq" | .lt => "Lt" | .ltEq => "LtEq"
  | .gt => "Gt" | .gtEq => "GtEq" | .and => "And" | .or => "Or"

def reprUnaryOp : UnaryOp → String
  | .not => "Not" | .neg => "Neg" | .pos => "Pos"

def reprAugOp : AugAssignOp → String
  | .add => "Add" | .sub => "Sub" | .mul => "Mul" | .div => "Div"

mutual

def reprExpr : Expr → String
  | .intLiteral s => "IntLiteral(" ++ quoteStr s ++ ")"
  | .hexLiteral s => "HexLiteral(" ++ quoteStr s ++ ")"
  | .stringLiteral s => "StringLiteral(" ++ quoteStr s ++ ")"
  | .boolLiteral b => "BoolLiteral(" ++ (if b then "true" else "false") ++ ")"
  | .noneLiteral => "NoneLiteral"
  | .ident s => "Ident(" ++ quoteStr s ++ ")"
  | .binOp l op r =>
      "BinOp(" ++ reprExpr l ++ ", " ++ reprBinOp op ++ ", " ++ reprExpr r ++ ")"
  | .unaryOp op e => "UnaryOp(" ++ reprUnaryOp op ++ ", " ++ reprExpr e ++ ")"
  | .call f args => "Call(" ++ reprExpr f ++ ", [" ++ reprExprList args ++ "])"
  | .attribute b n => "Attribute(" ++ reprExpr b ++ ", " ++ quoteStr n ++ ")"
  | .index b i => "Index(" ++ reprExpr b ++ ", " ++ reprExpr i ++ ")"
  | .listE es => "List([" ++ reprExprList es ++ "])"
  | .tupleE es => "Tuple([" ++ reprExprList es ++ "])"
  | .ifExp t b o =>
      "IfExp \x7b test: " ++ reprExpr t ++ ", body: " ++ reprExpr b
        ++ ", orelse: " ++ reprExpr o ++ " \x7d"

def reprExprList : List Expr → String
  | [] => ""
  | [e] => reprExpr e
  | e :: rest => reprExpr e ++ ", " ++ reprExprList rest

end

mutual

def reprTy : Ty → String
  | .simple s => "Simple(" ++ quoteStr s ++ ")"
  | .list t => "List(" ++ reprTy t ++ ")"
  | .fixedArray t n => "FixedArray(" ++ reprTy t ++ ", " ++ toString n ++ ")"
  | .mapping k v => "Mapping(" ++ reprTy k ++ ", " ++ reprTy v ++ ")"
  | .optionalTy t => "Optional(" ++ reprTy t ++ ")"
  | .tuple ts => "Tuple([" ++ reprTyList ts ++ "])"

def reprTyList : List Ty → String
  | [] => ""
  | [t] => reprTy t
  | t :: rest => reprTy t ++ ", " ++ reprTyList rest

end

def reprOptTy : Option Ty → String
  | none => "None"
  | some t => "Some(" ++ reprTy t ++ ")"

/- ===== Semantic analyzer (crates/quorlin-semantics/src/lib.rs) ===== -/

namespace Semantics

/- `SemanticError` -/
inductive SemanticError where
  | undefinedVariable (name : String)
  | undefinedFunction (name : String)
  | undefinedType (name : String)
  | duplicateDefinition (name : String)
  | typeMismatch (expected : String) (found : String)
  | invalidDecorator (name : String) (construct : String)
  | validationError (msg : String)
  | uninitializedVariable (name : String)
  | invalidOperation (msg : String)
deriving DecidableEq

open TypeChecker

/- `check_type_compatibility` (type_checker.rs) -/
def checkTypeCompatibility (expected found : Ty) : Except SemanticError Unit :=
  if typesCompatible expected found then .ok ()
  else .error (.typeMismatch (reprTy expected) (reprTy found))

/- `infer_binop_type` (type_checker.rs) -/
def inferBinopType (left right : Ty) (op : BinOp) : Except SemanticError Ty :=
  match op with
  | .add | .sub | .mul | .div | .mod | .pow =>
      match left, right with
      | .simple l, .simple r =>
          if isNumericType l && isNumericType r then
            .ok (.simple (if getTypeSize r ≤ getTypeSize l then l else r))
          else
            .error (.typeMismatch "numeric types"
              (reprTy left ++ " and " ++ reprTy right))
      | _, _ =>
          .error (.typeMismatch "numeric types"
            (reprTy left ++ " and " ++ reprTy right))
  | .eq | .notEq | .lt | .ltEq | .gt | .gtEq => .ok (.simple "bool")
  | .and | .or =>
      match left, right with
      | .simple l, .simple r =>
          if l == "bool" && r == "bool" then .ok (.simple "bool")
          else
            .error (.typeMismatch "bool"
              (reprTy left ++ " and " ++ reprTy right))
      | _, _ =>
          .error (.typeMismatch "bool" (reprTy left ++ " and " ++ reprTy right))
  | .floorDiv => .ok (.simple "unknown")

/- The analyzer's lookup environment: `symbols.lookup_variable` and the
   `function_return_types` table, modelled as functions. -/
structure Env where
  lookupVar : String → Option Ty
  fnRetTy : String → Option (Option Ty)

/- Type-constructor / stdlib names recognized in the `Call` arm of
   `check_expression` (the match on `func_name.as_str()`). -/
def callBuiltinTy (funcName : String) : Option Ty :=
  if funcName == "address" then some (.simple "address")
  else if funcName == "uint8" || funcName == "uint16" || funcName == "uint32"
      || funcName == "uint64" || funcName == "uint128" || funcName == "uint256" then
    some (.simple funcName)
  else if funcName == "int8" || funcName == "int16" || funcName == "int32"
      || funcName == "int64" || funcName == "int128" || funcName == "int256" then
    some (.simple funcName)
  else if funcName == "bytes32" || funcName == "bytes" || funcName == "str"
      || funcName == "bool" then
    some (.simple funcName)
  else if funcName == "safe_add" || funcName == "safe_sub"
      || funcName == "safe_mul" || funcName == "safe_div" then
    some (.simple "uint256")
  else if funcName == "require" || funcName == "assert" then
    some (.simple "void")
  else if funcName == "range" then some (.list (.simple "uint256"))
  else none

mutual

/- `check_expression` (lib.rs lines 431-616). The source match has no arm
   for `IfExp`; that constructor is mapped to an error here. -/
def checkExpression (env : Env) : Expr → Except SemanticError Ty
  | .intLiteral _ => .ok (.simple "uint256")
  | .stringLiteral _ => .ok (.simple "str")
  | .boolLiteral _ => .ok (.simple "bool")
  | .noneLiteral => .ok (.simple "None")
  | .hexLiteral _ => .ok (.simple "bytes32")
  | .ident name =>
      match env.lookupVar name with
      | some ty => .ok ty
      | none => .ok (.simple "unknown")
  | .binOp l op r => do
      let lt ← checkExpression env l
      let rt ← checkExpression env r
      inferBinopType lt rt op
  | .unaryOp op e => do
      let t ← checkExpression env e
      match op with
      | .not =>
          if !(tyEq t (.simple "bool")) && !(tyEq t (.simple "unknown")) then
            .error (.typeMismatch "bool" (reprTy t))
          else .ok (.simple "bool")
      | .neg => .ok t
      | .pos => .ok t
  | .call f args => do
      checkExprsUnit env args
      match f with
      | .ident funcName =>
          match callBuiltinTy funcName with
          | some t => .ok t
          | none => .ok (.simple "unknown")
      | .attribute base methodName =>
          match base with
          | .ident baseName =>
              if baseName == "self" then
                match env.fnRetTy methodName with
                | some (some t) => .ok t
                | some none => .ok (.simple "void")
                | none => .ok (.simple "unknown")
              else .ok (.simple "unknown")
          | _ => .ok (.simple "unknown")
      | _ => .ok (.simple "unknown")
  | .attribute base attr => do
      let baseTy ← checkExpression env base
      match base with
      | .ident baseName =>
          if baseName == "msg" then
            if attr == "sender" then .ok (.simple "address")
            else if attr == "value" then .ok (.simple "uint256")
            else .ok baseTy
          else if baseName == "block" then
            if attr == "timestamp" || attr == "number" then
              .ok (.simple "uint256")
            else .ok baseTy
          else if baseName == "self" then
            match env.lookupVar attr with
            | some ty => .ok ty
            | none => .ok baseTy
          else .ok baseTy
      | _ => .ok baseTy
  | .index base idx => do
      let baseTy ← checkExpression env base
      let idxTy ← checkExpression env idx
      match baseTy with
      | .mapping k v => do
          checkTypeCompatibility k idxTy
          .ok v
      | .list elemTy =>
          match idxTy with
          | .simple i =>
              if !(i == "uint8" || i == "uint16" || i == "uint32"
                  || i == "uint64" || i == "uint128" || i == "uint256") then
                .error (.typeMismatch "numeric type" (reprTy idxTy))
              else .ok elemTy
          | _ => .ok elemTy
      | _ => .ok (.simple "unknown")
  | .listE [] => .ok (.list (.simple "unknown"))
  | .listE (e :: rest) => do
      let elemTy ← checkExpression env e
      checkElemsCompat env elemTy rest
      .ok (.list elemTy)
  | .tupleE elems => do
      let ts ← checkTupleTys env elems
      .ok (.tuple ts)
  | .ifExp _ _ _ => .error (.validationError "non-exhaustive match: IfExp")

/- The `for arg in args { self.check_expression(arg)?; }` loops. -/
def checkExprsUnit (env : Env) : List Expr → Except SemanticError Unit
  | [] => .ok ()
  | e :: rest => do
      let _ ← checkExpression env e
      checkExprsUnit env rest

/- The element loop in the `List` arm. -/
def checkElemsCompat (env : Env) (elemTy : Ty) : List Expr → Except SemanticError Unit
  | [] => .ok ()
  | e :: rest => do
      let t ← checkExpression env e
      checkTypeCompatibility elemTy t
      checkElemsCompat env elemTy rest

/- The element loop in the `Tuple` arm. -/
def checkTupleTys (env : Env) : List Expr → Except SemanticError (List Ty)
  | [] => .ok []
  | e :: rest => do
      let t ← checkExpression env e
      let ts ← checkTupleTys env rest
      .ok (t :: ts)

end

/- `FunctionContext` -/
structure FunctionContext where
  name : String
  retTy : Option Ty
  hasReturn : Bool

/- The `Stmt::Return` arm of `check_statement` (lib.rs lines 284-311):
   evaluate the value's type first, then set `has_return` and validate
   against the declared return type while the enclosing function's context
   is present. -/
def checkReturnStmt (env : Env) (octx : Option FunctionContext)
    (ret : Option Expr) : Except SemanticError (Option FunctionContext) := do
  let returnValueType ←
    match ret with
    | some value => do
        let t ← checkExpression env value
        pure (some t)
    | none => pure none
  match octx with
  | none => .ok none
  | some ctx =>
      let ctx := { ctx with hasReturn := true }
      match returnValueType with
      | some returnType =>
          match ctx.retTy with
          | some expectedType => do
              checkTypeCompatibility expectedType returnType
              .ok (some ctx)
          | none => .ok (some ctx)
      | none =>
          match ctx.retTy with
          | some _ =>
              .error (.typeMismatch (reprOptTy ctx.retTy) "void")
          | none => .ok (some ctx)

end Semantics

/- ===== EVM code generator (crates/quorlin-codegen-evm/src/lib.rs) ===== -/

namespace EvmCodegen

/- `CodegenError` -/
inductive CodegenError where
  | genError (msg : String)
  | unsupportedFeature (msg : String)
  | contractNotFound
deriving DecidableEq

/- The `HashMap<String, usize>` storage layout, as an association list with
   insert-overwrite semantics. -/
abbrev StorageLayout := List (String × Nat)

def assocInsert (l : List (String × String)) (k v : String) : List (String × String) :=
  match l with
  | [] => [(k, v)]
  | (k2, v2) :: rest =>
      if k2 == k then (k, v) :: rest else (k2, v2) :: assocInsert rest k v

def layoutInsert (l : StorageLayout) (k : String) (v : Nat) : StorageLayout :=
  match l with
  | [] => [(k, v)]
  | (k2, v2) :: rest =>
      if k2 == k then (k, v) :: rest else (k2, v2) :: layoutInsert rest k v

def layoutGet (layout : StorageLayout) (name : String) : Option Nat :=
  match layout.find? (fun p => p.1 == name) with
  | some p => some p.2
  | none => none

def sigGet (sigs : List (String × String)) (name : String) : Option String :=
  match sigs.find? (fun p => p.1 == name) with
  | some p => some p.2
  | none => none

/- `allocate_storage`: one slot per state variable, in declaration order. -/
def allocateStorageGo : StorageLayout → Nat → List ContractMember → StorageLayout × Nat
  | l, n, [] => (l, n)
  | l, n, .stateVar v :: rest => allocateStorageGo (layoutInsert l v.name n) (n + 1) rest
  | l, n, _ :: rest => allocateStorageGo l n rest

def allocateStorage (members : List ContractMember) : StorageLayout :=
  (allocateStorageGo [] 0 members).1

def spaces (n : Nat) : String := String.mk (List.replicate n ' ')

def natToHex (n : Nat) : String := String.mk (Nat.toDigits 16 n)

/- Rust `format!("0x{:08x}", v)` style zero-padded lowercase hex. -/
def hexPad (width n : Nat) : String :=
  let s := natToHex n
  String.mk (List.replicate (width - s.length) '0') ++ s

/- `calculate_selector`, with the `DefaultHasher` digest abstracted as a
   function `h` of the name and parameter names; the result is truncated to
   u32 as in the source. -/
def calculateSelector (h : String → List String → Nat) (name : String)
    (params : List Param) : Nat :=
  h name (params.map (fun p => p.name)) % 4294967296

/- `collect_events`, with the hasher abstracted as `hev`; `finish()` is a
   u64, formatted `0x{:064x}`. -/
def collectEvents (hev : String → List String → Nat) (m : Module) :
    List (String × String) :=
  m.items.foldl
    (fun acc item =>
      match item with
      | .eventI ev =>
          assocInsert acc ev.name
            ("0x" ++ hexPad 64 (hev ev.name (ev.params.map (fun p => p.name))
              % 18446744073709551616))
      | _ => acc)
    []

/- The arithmetic / comparison operator table in the `BinOp` arm of
   `generate_expression`; `none` for operators that fall to the `_` arm. -/
def binOpCode : BinOp → Option String
  | .add => some "checked_add"
  | .sub => some "checked_sub"
  | .mul => some "checked_mul"
  | .div => some "checked_div"
  | .mod => some "checked_mod"
  | .eq => some "eq"
  | .notEq => some "iszero(eq"
  | .lt => some "lt"
  | .gt => some "gt"
  | .ltEq => some "iszero(gt"
  | .gtEq => some "iszero(lt"
  | _ => none

mutual

/- `generate_expression` (lib.rs lines 525-698). -/
def generateExpression (layout : StorageLayout) : Expr → Except CodegenError String
  | .intLiteral n => .ok n
  | .boolLiteral b => .ok (if b then "1" else "0")
  | .ident name =>
      match layoutGet layout name with
      | some slot => .ok ("sload(" ++ toString slot ++ ")")
      | none => .ok name
  | .binOp left op right => do
      let leftCode ← generateExpression layout left
      let rightCode ← generateExpression layout right
      match binOpCode op with
      | none => .error (.unsupportedFeature ("BinOp " ++ reprBinOp op))
      | some opCode =>
          if op == BinOp.notEq || op == BinOp.ltEq || op == BinOp.gtEq then
            .ok (opCode ++ "(" ++ leftCode ++ ", " ++ rightCode ++ ")))")
          else
            .ok (opCode ++ "(" ++ leftCode ++ ", " ++ rightCode ++ ")")
  | .call f args =>
      match f with
      | .ident funcName => do
          let argCodes ← genExprList layout args
          if funcName == "address" then
            match argCodes with
            | [c] => .ok c
            | _ => .error (.unsupportedFeature "address() requires 1 argument")
          else if funcName == "safe_add" then
            match argCodes with
            | [a, b] => .ok ("checked_add(" ++ a ++ ", " ++ b ++ ")")
            | _ => .error (.unsupportedFeature "safe_add requires 2 arguments")
          else if funcName == "safe_sub" then
            match argCodes with
            | [a, b] => .ok ("checked_sub(" ++ a ++ ", " ++ b ++ ")")
            | _ => .error (.unsupportedFeature "safe_sub requires 2 arguments")
          else if funcName == "safe_mul" then
            match argCodes with
            | [a, b] => .ok ("checked_mul(" ++ a ++ ", " ++ b ++ ")")
            | _ => .error (.unsupportedFeature "safe_mul requires 2 arguments")
          else if funcName == "safe_div" then
            match argCodes with
            | [a, b] => .ok ("checked_div(" ++ a ++ ", " ++ b ++ ")")
            | _ => .error (.unsupportedFeature "safe_div requires 2 arguments")
          else
            .ok (funcName ++ "(" ++ String.intercalate ", " argCodes ++ ")")
      | _ => .error (.unsupportedFeature "Complex function calls")
  | .attribute base attr =>
      match base with
      | .ident baseName =>
          if baseName == "msg" && attr == "sender" then .ok "caller()"
          else if baseName == "msg" && attr == "value" then .ok "callvalue()"
          else if baseName == "self" then
            match layoutGet layout attr with
            | some slot => .ok (toString slot)
            | none =>
                .error (.unsupportedFeature ("Attribute access: base." ++ attr))
          else .error (.unsupportedFeature ("Attribute access: base." ++ attr))
      | _ => .error (.unsupportedFeature ("Attribute access: base." ++ attr))
  | .index target idx =>
      match target with
      | .attribute base attr =>
          match base with
          | .ident baseName =>
              if baseName == "self" then
                match layoutGet layout attr with
                | some slot => do
                    let keyCode ← generateExpression layout idx
                    .ok ("\x7b\n          mstore(0, " ++ keyCode
                      ++ ")\n          mstore(32, " ++ toString slot
                      ++ ")\n          sload(keccak256(0, 64))\n        \x7d")
                | none =>
                    .error (.unsupportedFeature
                      ("Index " ++ reprExpr (.index target idx)))
              else
                .error (.unsupportedFeature
                  ("Index " ++ reprExpr (.index target idx)))
          | _ =>
              .error (.unsupportedFeature
                ("Index " ++ reprExpr (.index target idx)))
      | .index nestedTarget nestedIdx =>
          match nestedTarget with
          | .attribute base attr =>
              match base with
              | .ident baseName =>
                  if baseName == "self" then
                    match layoutGet layout attr with
                    | some slot => do
                        let firstKey ← generateExpression layout nestedIdx
                        let secondKey ← generateExpression layout idx
                        .ok ("\x7b\n          mstore(0, " ++ firstKey
                          ++ ")\n          mstore(32, " ++ toString slot
                          ++ ")\n          let first_slot := keccak256(0, 64)\n"
                          ++ "          mstore(0, " ++ secondKey
                          ++ ")\n          mstore(32, first_slot)\n"
                          ++ "          sload(keccak256(0, 64))\n        \x7d")
                    | none =>
                        .error (.unsupportedFeature
                          ("Index " ++ reprExpr (.index target idx)))
                  else
                    .error (.unsupportedFeature
                      ("Index " ++ reprExpr (.index target idx)))
              | _ =>
                  .error (.unsupportedFeature
                    ("Index " ++ reprExpr (.index target idx)))
          | _ =>
              .error (.unsupportedFeature
                ("Index " ++ reprExpr (.index target idx)))
      | _ =>
          .error (.unsupportedFeature ("Index " ++ reprExpr (.index target idx)))
  | e => .error (.unsupportedFeature ("Expression " ++ reprExpr e))

/- The argument-collection loop of the `Call` arm. -/
def genExprList (layout : StorageLayout) : List Expr → Except CodegenError (List String)
  | [] => .ok []
  | e :: rest => do
      let c ← generateExpression layout e
      let cs ← genExprList layout rest
      .ok (c :: cs)

end

/- The argument loop of the `Emit` arm of `generate_statement`. -/
def genEmitArgs (layout : StorageLayout) (indStr : String) :
    List Expr → Nat → Except CodegenError String
  | [], _ => .ok ""
  | a :: rest, off => do
      let c ← generateExpression layout a
      let restS ← genEmitArgs layout indStr rest (off + 32)
      .ok (indStr ++ "mstore(" ++ toString off ++ ", " ++ c ++ ")\n" ++ restS)

mutual

/- `generate_statement` (lib.rs lines 297-522). -/
def generateStatement (layout : StorageLayout) (sigs : List (String × String))
    (stmt : Stmt) (ind : Nat) : Except CodegenError String :=
  let indStr := spaces ind
  match stmt with
  | .ret (some e) => do
      let exprCode ← generateExpression layout e
      .ok (indStr ++ "let ret := " ++ exprCode ++ "\n"
        ++ indStr ++ "mstore(0, ret)\n"
        ++ indStr ++ "return(0, 32)\n")
  | .ret none => .ok (indStr ++ "return(0, 0)\n")
  | .assign target _ value => do
      let valueCode ← generateExpression layout value
      match target with
      | .ident name =>
          match layoutGet layout name with
          | some slot =>
              .ok (indStr ++ "sstore(" ++ toString slot ++ ", " ++ valueCode ++ ")\n")
          | none =>
              .ok (indStr ++ "let " ++ name ++ " := " ++ valueCode ++ "\n")
      | .index idxTarget idxExpr =>
          match idxTarget with
          | .attribute base attr =>
              match base with
              | .ident baseName =>
                  if baseName == "self" then
                    match layoutGet layout attr with
                    | some slot => do
                        let keyCode ← generateExpression layout idxExpr
                        .ok (indStr ++ "mstore(0, " ++ keyCode ++ ")\n"
                          ++ indStr ++ "mstore(32, " ++ toString slot ++ ")\n"
                          ++ indStr ++ "sstore(keccak256(0, 64), " ++ valueCode ++ ")\n")
                    | none =>
                        .error (.unsupportedFeature
                          ("Indexed assignment " ++ reprExpr target))
                  else
                    .error (.unsupportedFeature
                      ("Indexed assignment " ++ reprExpr target))
              | _ =>
                  .error (.unsupportedFeature
                    ("Indexed assignment " ++ reprExpr target))
          | .index nestedTarget nestedIdx =>
              match nestedTarget with
              | .attribute base attr =>
                  match base with
                  | .ident baseName =>
                      if baseName == "self" then
                        match layoutGet layout attr with
                        | some slot => do
                            let firstKey ← generateExpression layout nestedIdx
                            let secondKey ← generateExpression layout idxExpr
                            .ok (indStr ++ "// Nested mapping assignment\n"
                              ++ indStr ++ "mstore(0, " ++ firstKey ++ ")\n"
                              ++ indStr ++ "mstore(32, " ++ toString slot ++ ")\n"
                              ++ indStr ++ "let first_slot := keccak256(0, 64)\n"
                              ++ indStr ++ "mstore(0, " ++ secondKey ++ ")\n"
                              ++ indStr ++ "mstore(32, first_slot)\n"
                              ++ indStr ++ "sstore(keccak256(0, 64), " ++ valueCode ++ ")\n")
                        | none =>
                            .error (.unsupportedFeature
                              ("Indexed assignment " ++ reprExpr target))
                      else
                        .error (.unsupportedFeature
                          ("Indexed assignment " ++ reprExpr target))
                  | _ =>
                      .error (.unsupportedFeature
                        ("Indexed assignment " ++ reprExpr target))
              | _ =>
                  .error (.unsupportedFeature
                    ("Indexed assignment " ++ reprExpr target))
          | _ =>
              .error (.unsupportedFeature
                ("Indexed assignment " ++ reprExpr target))
      | _ =>
          .error (.unsupportedFeature ("Assignment target " ++ reprExpr target))
  | .requireS condition _ => do
      let cond ← generateExpression layout condition
      .ok (indStr ++ "if iszero(" ++ cond ++ ") \x7b revert(0, 0) \x7d\n")
  | .emitS event args =>
      match sigGet sigs event with
      | some sig => do
          let argCode ← genEmitArgs layout indStr args 0
          .ok (argCode ++ indStr ++ "log1(0, " ++ toString (args.length * 32)
            ++ ", " ++ sig ++ ")\n")
      | none => .ok (indStr ++ "// Unknown event: " ++ event ++ "\n")
  | .pass => .ok (indStr ++ "// pass\n")
  | .ifS condition thenBranch elifBranches none => do
      let condCode ← generateExpression layout condition
      let thenCode ← generateStatements layout sigs thenBranch (ind + 2)
      let elifCode ← generateElifs layout sigs elifBranches ind
      .ok (indStr ++ "if " ++ condCode ++ " \x7b\n" ++ thenCode ++ elifCode
        ++ indStr ++ "\x7d\n")
  | .ifS condition thenBranch elifBranches (some elseBody) => do
      let condCode ← generateExpression layout condition
      let thenCode ← generateStatements layout sigs thenBranch (ind + 2)
      let elifCode ← generateElifs layout sigs elifBranches ind
      let elseCode ← generateStatements layout sigs elseBody (ind + 2)
      .ok (indStr ++ "if " ++ condCode ++ " \x7b\n" ++ thenCode ++ elifCode
        ++ indStr ++ "\x7d\n" ++ indStr ++ "// else\n" ++ indStr ++ "\x7b\n"
        ++ elseCode ++ indStr ++ "\x7d\n")
  | .whileS condition body => do
      let condCode ← generateExpression layout condition
      let bodyCode ← generateStatements layout sigs body (ind + 2)
      .ok (indStr ++ "for \x7b\x7d " ++ condCode ++ " \x7b\x7d\n"
        ++ indStr ++ "\x7b\n" ++ bodyCode ++ indStr ++ "\x7d\n")
  | .forS v iterable body =>
      match iterable with
      | .call callee args =>
          match callee with
          | .ident funcName =>
              if funcName == "range" then do
                let bounds ←
                  match args with
                  | [n] => do
                      let endCode ← generateExpression layout n
                      pure ("0", endCode, "1")
                  | [a, b] => do
                      let startCode ← generateExpression layout a
                      let endCode ← generateExpression layout b
                      pure (startCode, endCode, "1")
                  | [a, b, c] => do
                      let startCode ← generateExpression layout a
                      let endCode ← generateExpression layout b
                      let stepCode ← generateExpression layout c
                      pure (startCode, endCode, stepCode)
                  | _ =>
                      .error (.unsupportedFeature "range() requires 1-3 arguments")
                let bodyCode ← generateStatements layout sigs body (ind + 1)
                .ok (indStr ++ "for \x7b let " ++ v ++ " := " ++ bounds.1
                  ++ " \x7d lt(" ++ v ++ ", " ++ bounds.2.1 ++ ") \x7b " ++ v
                  ++ " := add(" ++ v ++ ", " ++ bounds.2.2 ++ ") \x7d\n"
                  ++ indStr ++ "\x7b\n" ++ bodyCode ++ indStr ++ "\x7d\n")
              else
                .error (.unsupportedFeature
                  ("For loop over " ++ funcName ++ " not supported (use range())"))
          | _ =>
              .error (.unsupportedFeature "For loop iterable must be range() call")
      | _ => .error (.unsupportedFeature "For loop iterable must be range() call")
  | .exprS e => .error (.unsupportedFeature ("Expr(" ++ reprExpr e ++ ")"))
  | .brk => .error (.unsupportedFeature "Break")
  | .cont => .error (.unsupportedFeature "Continue")
  | .augAssign t op v =>
      .error (.unsupportedFeature ("AugAssign(AugAssignStmt \x7b target: "
        ++ quoteStr t ++ ", op: " ++ reprAugOp op ++ ", value: " ++ reprExpr v
        ++ " \x7d)"))
  | .revertS m => .error (.unsupportedFeature ("Revert(" ++ quoteStr m ++ ")"))
  | .raiseS n args =>
      .error (.unsupportedFeature ("Raise(RaiseStmt \x7b error: " ++ quoteStr n
        ++ ", args: [" ++ reprExprList args ++ "] \x7d)"))

/- The statement loops (function/branch bodies). -/
def generateStatements (layout : StorageLayout) (sigs : List (String × String)) :
    List Stmt → Nat → Except CodegenError String
  | [], _ => .ok ""
  | s :: rest, ind => do
      let c ← generateStatement layout sigs s ind
      let cs ← generateStatements layout sigs rest ind
      .ok (c ++ cs)

/- The elif loop of the `If` arm. -/
def generateElifs (layout : StorageLayout) (sigs : List (String × String)) :
    List (Expr × List Stmt) → Nat → Except CodegenError String
  | [], _ => .ok ""
  | (cond, body) :: rest, ind => do
      let condCode ← generateExpression layout cond
      let bodyCode ← generateStatements layout sigs body (ind + 2)
      let restCode ← generateElifs layout sigs rest ind
      .ok (spaces ind ++ "\x7d\n" ++ spaces ind ++ "if " ++ condCode
        ++ " \x7b\n" ++ bodyCode ++ restCode)

end

/- The parameter-loading loops of `generate_functions` / `generate_constructor`. -/
def paramLoadsGo (indStr : String) (base : Nat) : Nat → List Param → String
  | _, [] => ""
  | i, p :: rest =>
      indStr ++ "let " ++ p.name ++ " := calldataload(" ++ toString (base + i * 32)
        ++ ")\n" ++ paramLoadsGo indStr base (i + 1) rest

/- `generate_functions` -/
def generateFunctions (layout : StorageLayout) (sigs : List (String × String)) :
    List ContractMember → Except CodegenError String
  | [] => .ok ""
  | .func f :: rest =>
      if f.name == "__init__" then generateFunctions layout sigs rest
      else do
        let bodyCode ← generateStatements layout sigs f.body 8
        let restCode ← generateFunctions layout sigs rest
        .ok ("      function " ++ f.name ++ "() \x7b\n"
          ++ paramLoadsGo (spaces 8) 4 0 f.params
          ++ (if f.params.isEmpty then "" else "\n")
          ++ bodyCode
          ++ "      \x7d\n\n"
          ++ restCode)
  | _ :: rest => generateFunctions layout sigs rest

/- The `find_map` for the constructor function. -/
def findConstructor : List ContractMember → Option FunctionDecl
  | [] => none
  | .func f :: rest => if f.name == "__init__" then some f else findConstructor rest
  | _ :: rest => findConstructor rest

/- `generate_constructor` -/
def generateConstructor (layout : StorageLayout) (sigs : List (String × String))
    (members : List ContractMember) : Except CodegenError String :=
  match findConstructor members with
  | none => .ok ""
  | some ctor => do
      let bodyCode ← generateStatements layout sigs ctor.body 4
      .ok ("    // Execute constructor\n"
        ++ paramLoadsGo (spaces 4) 0 0 ctor.params
        ++ (if ctor.params.isEmpty then "" else "\n")
        ++ bodyCode ++ "\n")

/- The case lines of `generate_dispatcher`. -/
def dispatcherCases (h : String → List String → Nat) : List ContractMember → String
  | [] => ""
  | .func f :: rest =>
      if f.name == "__init__" then dispatcherCases h rest
      else
        "      case 0x" ++ hexPad 8 (calculateSelector h f.name f.params)
          ++ " \x7b " ++ f.name ++ "() \x7d\n" ++ dispatcherCases h rest
  | _ :: rest => dispatcherCases h rest

/- `generate_dispatcher` -/
def generateDispatcher (h : String → List String → Nat)
    (members : List ContractMember) : Except CodegenError String :=
  .ok ("      // Function dispatcher\n"
    ++ "      switch selector()\n"
    ++ dispatcherCases h members
    ++ "      default \x7b revert(0, 0) \x7d\n\n"
    ++ "      function selector() -> s \x7b\n"
    ++ "        s := div(calldataload(0), 0x100000000000000000000000000000000000000000000000000000000)\n"
    ++ "      \x7d\n\n")

/- `generate_checked_math_helpers` (the raw string literal). -/
def checkedMathHelpers : String :=
  "\n      // ========================================\n"
    ++ "      // CHECKED ARITHMETIC HELPERS\n"
    ++ "      // Prevent integer overflow/underflow\n"
    ++ "      // ========================================\n\n"
    ++ "      function checked_add(a, b) -> result \x7b\n"
    ++ "          result := add(a, b)\n"
    ++ "          // Overflow check: result must be >= a\n"
    ++ "          if lt(result, a) \x7b revert(0, 0) \x7d\n"
    ++ "      \x7d\n\n"
    ++ "      function checked_sub(a, b) -> result \x7b\n"
    ++ "          // Underflow check: a must be >= b\n"
    ++ "          if lt(a, b) \x7b revert(0, 0) \x7d\n"
    ++ "          result := sub(a, b)\n"
    ++ "      \x7d\n\n"
    ++ "      function checked_mul(a, b) -> result \x7b\n"
    ++ "          result := mul(a, b)\n"
    ++ "          // Overflow check (except for zero)\n"
    ++ "          if iszero(b) \x7b leave \x7d\n"
    ++ "          if iszero(eq(div(result, b), a)) \x7b revert(0, 0) \x7d\n"
    ++ "      \x7d\n\n"
    ++ "      function checked_div(a, b) -> result \x7b\n"
    ++ "          // Division by zero check\n"
    ++ "          if iszero(b) \x7b revert(0, 0) \x7d\n"
    ++ "          result := div(a, b)\n"
    ++ "      \x7d\n\n"
    ++ "      function checked_mod(a, b) -> result \x7b\n"
    ++ "          // Modulo by zero check\n"
    ++ "          if iszero(b) \x7b revert(0, 0) \x7d\n"
    ++ "          result := mod(a, b)\n"
    ++ "      \x7d\n\n"
    ++ "      // ========================================\n"

/- The `find_map` for the first contract item. -/
def findContract (m : Module) : Option ContractDecl :=
  match m.items.find? (fun item => match item with | .contractI _ => true | _ => false) with
  | some (.contractI c) => some c
  | _ => none

/- `generate` (lib.rs lines 54-106), with the two `DefaultHasher` digests
   abstracted as `h` (selectors) and `hev` (event signatures). -/
def generate (h hev : String → List String → Nat) (m : Module) :
    Except CodegenError String :=
  match findContract m with
  | none => .error .contractNotFound
  | some contract => do
      let sigs := collectEvents hev m
      let layout := allocateStorage contract.body
      let ctorCode ← generateConstructor layout sigs contract.body
      let dispatcher ← generateDispatcher h contract.body
      let funcs ← generateFunctions layout sigs contract.body
      .ok ("// Contract: " ++ contract.name ++ "\n"
        ++ "object \"Contract\" \x7b\n"
        ++ "  code \x7b\n"
        ++ "    // Constructor (deployment) code\n"
        ++ ctorCode
        ++ "    // Copy runtime code to memory and return it\n"
        ++ "    datacopy(0, dataoffset(\"runtime\"), datasize(\"runtime\"))\n"
        ++ "    return(0, datasize(\"runtime\"))\n"
        ++ "  \x7d\n"
        ++ "  object \"runtime\" \x7b\n"
        ++ "    code \x7b\n"
        ++ checkedMathHelpers
        ++ dispatcher
        ++ funcs
        ++ "    \x7d\n"
        ++ "  \x7d\n"
        ++ "\x7d\n")

end EvmCodegen

/- ===== Security analyzer (crates/quorlin-semantics/src/security_analyzer.rs) ===== -/

namespace SecurityAnalyzer

/- `SecurityWarning` -/
inductive SecurityWarning where
  | reentrancyRisk (funcName : String) (line : String)
  | missingAccessControl (funcName : String) (reason : String)
  | stateChangeAfterExternalCall (funcName : String) (line : String)
  | unprotectedStateModification (funcName : String) (stateVarName : String)
deriving DecidableEq

/- `is_state_variable_access` -/
def isStateVariableAccess (svars : List String) : Expr → Bool
  | .attribute (.ident baseName) attr => baseName == "self" && svars.contains attr
  | .attribute _ _ => false
  | .index base _ => isStateVariableAccess svars base
  | _ => false

/- `expression_checks_sender` -/
def expressionChecksSender : Expr → Bool
  | .binOp l _ r => expressionChecksSender l || expressionChecksSender r
  | .attribute (.ident baseName) attr => baseName == "msg" && attr == "sender"
  | .attribute _ _ => false
  | _ => false

mutual

/- `statement_modifies_state` -/
def stmtModifiesState (svars : List String) : Stmt → Bool
  | .assign target _ _ =>
      (match target with
       | .attribute (.ident baseName) attr =>
           baseName == "self" && svars.contains attr
       | _ => false)
      ||
      (match target with
       | .index base _ => isStateVariableAccess svars base
       | _ => false)
  | .ifS _ thenBranch elifBranches none =>
      bodyModifiesState svars thenBranch || elifsModifyState svars elifBranches
  | .ifS _ thenBranch elifBranches (some elseBody) =>
      bodyModifiesState svars thenBranch || elifsModifyState svars elifBranches
        || bodyModifiesState svars elseBody
  | .forS _ _ body => bodyModifiesState svars body
  | .whileS _ body => bodyModifiesState svars body
  | _ => false

/- `function_modifies_state` -/
def bodyModifiesState (svars : List String) : List Stmt → Bool
  | [] => false
  | s :: rest => stmtModifiesState svars s || bodyModifiesState svars rest

def elifsModifyState (svars : List String) : List (Expr × List Stmt) → Bool
  | [] => false
  | (_, body) :: rest =>
      bodyModifiesState svars body || elifsModifyState svars rest

end

mutual

/- `statement_has_access_control` -/
def stmtHasAccessControl : Stmt → Bool
  | .requireS condition _ => expressionChecksSender condition
  | .ifS condition thenBranch elifBranches none =>
      expressionChecksSender condition || bodyHasAccessControl thenBranch
        || elifsHaveAccessControl elifBranches
  | .ifS condition thenBranch elifBranches (some elseBody) =>
      expressionChecksSender condition || bodyHasAccessControl thenBranch
        || elifsHaveAccessControl elifBranches || bodyHasAccessControl elseBody
  | _ => false

/- `has_access_control_check` -/
def bodyHasAccessControl : List Stmt → Bool
  | [] => false
  | s :: rest => stmtHasAccessControl s || bodyHasAccessControl rest

def elifsHaveAccessControl : List (Expr × List Stmt) → Bool
  | [] => false
  | (cond, body) :: rest =>
      (expressionChecksSender cond || bodyHasAccessControl body)
        || elifsHaveAccessControl rest

end

/- `expression_is_external_call` -/
def expressionIsExternalCall : Expr → Bool
  | .call (.attribute _ _) _ => true
  | _ => false

mutual

/- `statement_has_external_call` -/
def stmtHasExternalCall : Stmt → Bool
  | .exprS e => expressionIsExternalCall e
  | .assign _ _ value => expressionIsExternalCall value
  | .ifS _ thenBranch elifBranches none =>
      bodyHasExternalCall thenBranch || elifsHaveExternalCall elifBranches
  | .ifS _ thenBranch elifBranches (some elseBody) =>
      bodyHasExternalCall thenBranch || elifsHaveExternalCall elifBranches
        || bodyHasExternalCall elseBody
  | .forS _ _ body => bodyHasExternalCall body
  | .whileS _ body => bodyHasExternalCall body
  | _ => false

/- `has_external_call` -/
def bodyHasExternalCall : List Stmt → Bool
  | [] => false
  | s :: rest => stmtHasExternalCall s || bodyHasExternalCall rest

def elifsHaveExternalCall : List (Expr × List Stmt) → Bool
  | [] => false
  | (_, body) :: rest => bodyHasExternalCall body || elifsHaveExternalCall rest

end

mutual

/- The statement loop of `check_statements_for_bad_pattern`; `found` is the
   `found_external_call` flag. -/
def badPatternGo (svars : List String) (found : Bool) : List Stmt → Bool
  | [] => false
  | s :: rest =>
      if found && stmtModifiesState svars s then true
      else
        let found2 := found || stmtHasExternalCall s
        if badPatternNested svars s then true
        else badPatternGo svars found2 rest

/- The nested-statement recursion inside the loop (fresh scan per nested
   body, starting with `found_external_call = false`). -/
def badPatternNested (svars : List String) : Stmt → Bool
  | .ifS _ thenBranch elifBranches none =>
      badPatternGo svars false thenBranch
        || badPatternElifs svars elifBranches
  | .ifS _ thenBranch elifBranches (some elseBody) =>
      badPatternGo svars false thenBranch
        || badPatternElifs svars elifBranches
        || badPatternGo svars false elseBody
  | .forS _ _ body => badPatternGo svars false body
  | .whileS _ body => badPatternGo svars false body
  | _ => false

def badPatternElifs (svars : List String) : List (Expr × List Stmt) → Bool
  | [] => false
  | (_, body) :: rest =>
      badPatternGo svars false body || badPatternElifs svars rest

end

/- `check_access_control` -/
def checkAccessControl (svars : List String) (f : FunctionDecl) :
    List SecurityWarning :=
  let isView := f.decorators.any (fun d => d == "view")
  if isView then []
  else
    let isConstructor := f.decorators.any (fun d => d == "constructor")
    if isConstructor then []
    else
      let modifiesSensitiveState := bodyModifiesState svars f.body
      if modifiesSensitiveState then
        let hasAccessControl := bodyHasAccessControl f.body
        if !hasAccessControl then
          let exempted := ["transfer", "approve", "balance_of", "allowance"]
          if !(exempted.contains f.name) then
            [.missingAccessControl f.name
              "Function modifies state without checking msg.sender"]
          else []
        else []
      else []

/- `check_reentrancy` -/
def checkReentrancy (svars : List String) (f : FunctionDecl) :
    List SecurityWarning :=
  let hasExternalCall := bodyHasExternalCall f.body
  let modifiesState := bodyModifiesState svars f.body
  if hasExternalCall && modifiesState then
    [.reentrancyRisk f.name "Function makes external calls and modifies state"]
  else []

/- `check_state_change_after_external_call` -/
def checkStateChangeAfterExternalCall (svars : List String) (f : FunctionDecl) :
    List SecurityWarning :=
  if badPatternGo svars false f.body then
    [.stateChangeAfterExternalCall f.name
      "State modified after external call (use Checks-Effects-Interactions pattern)"]
  else []

/- `analyze_function`: the three checks push warnings in this order. -/
def analyzeFunction (svars : List String) (f : FunctionDecl) :
    List SecurityWarning :=
  checkAccessControl svars f ++ checkReentrancy svars f
    ++ checkStateChangeAfterExternalCall svars f

/- The state-variable collection pass of `analyze`. -/
def collectStateVars (m : Module) : List String :=
  m.items.foldl
    (fun acc item =>
      match item with
      | .contractI c =>
          c.body.foldl
            (fun acc2 member =>
              match member with
              | .stateVar v => acc2 ++ [v.name]
              | _ => acc2)
            acc
      | _ => acc)
    []

/- `analyze`: collect state variables, then analyze every contract function
   in declaration order. -/
def analyze (m : Module) : List SecurityWarning :=
  let svars := collectStateVars m
  m.items.foldl
    (fun acc item =>
      match item with
      | .contractI c =>
          c.body.foldl
            (fun acc2 member =>
              match member with
              | .func f => acc2 ++ analyzeFunction svars f
              | _ => acc2)
            acc
      | _ => acc)
    []

end SecurityAnalyzer

/- ===== Lexer tokens (crates/quorlin-lexer/src/token.rs) ===== -/

namespace Lexer

/- `TokenType`; variant names carry a `Kw`/`T`/`Lit` suffix where the Rust
   name collides with a Lean keyword or builtin. -/
inductive TokenType where
  | fnKw | classKw | ifKw | elifKw | elseKw | forKw | whileKw | inKw
  | returnKw | passKw | breakKw | continueKw | andKw | orKw | notKw
  | trueKw | falseKw | noneKw | letKw | selfKw | fromKw | importKw | asKw
  | raiseKw
  | contractKw | interfaceKw | structKw | enumKw | eventKw | errorKw
  | constKw | emitKw | requireKw | revertKw | indexedKw | thisKw
  | boolKw | addressKw | strKw | bytesKw | mappingKw | listKw | optionalKw
  | uintT (s : String) | intT (s : String) | bytesNT (s : String)
  | ident (s : String)
  | intLit (s : String) | hexLit (s : String)
  | docStringSkip
  | stringLit (s : String) | stringLitSingle (s : String)
  | plus | minus | star | slash | percent | doubleStar
  | eqEq | notEq | lt | ltEq | gt | gtEq
  | eq | plusEq | minusEq | starEq | slashEq
  | lparen | rparen | lbracket | rbracket | lbrace | rbrace
  | colon | comma | dot | arrow | at
  | newline | comment
  | indent | dedent
  | eof

/- Discriminators for the token kinds the indentation processor cares
   about (the Rust code pattern-matches on `TokenType::Newline` and the
   balance property counts `Indent`/`Dedent`). -/
def TokenType.isNewline : TokenType → Bool
  | .newline => true
  | _ => false

def TokenType.isIndent : TokenType → Bool
  | .indent => true
  | _ => false

def TokenType.isDedent : TokenType → Bool
  | .dedent => true
  | _ => false

/- `Span`; the `end` field is renamed `endP` (Lean keyword). -/
structure Span where
  start : Nat
  endP : Nat
  line : Nat
  column : Nat

structure Token where
  tokenType : TokenType
  span : Span

end Lexer

/- ===== Indentation processor (crates/quorlin-lexer/src/indent.rs) ===== -/

namespace IndentProcessor

open Lexer

/- The DEDENT `while let` loop: pop levels strictly above `lvl`, returning
   how many were popped and the remaining stack. -/
def dedentPops (stack : List Nat) (lvl : Nat) : Nat × List Nat :=
  match stack with
  | [] => (0, [])
  | level :: rest =>
      if level ≤ lvl then (0, level :: rest)
      else
        let (n, s) := dedentPops rest lvl
        (n + 1, s)

/- The main loop of `process`, with the processor state (`indent_stack`,
   `at_line_start`, `line`, `column`) passed explicitly. On reaching the end
   of the input it performs the EOF drain and appends the EOF token. -/
def processGo (stack : List Nat) (atLineStart : Bool) (line column : Nat) :
    List Token → Except String (List Token)
  | [] =>
      .ok (List.replicate (stack.length - 1)
            (Token.mk .dedent (Span.mk 0 0 line 1))
        ++ [Token.mk .eof (Span.mk 0 0 line column)])
  | t :: rest =>
      if t.tokenType.isNewline then
        (processGo stack true (line + 1) 1 rest).map (fun out => t :: out)
      else
        let column2 := t.span.column + (t.span.endP - t.span.start)
        if atLineStart then
          let indentLevel := t.span.column - 1
          let currentIndent := stack.headD 0
          if indentLevel > currentIndent then
            (processGo (indentLevel :: stack) false line column2 rest).map
              (fun out =>
                Token.mk .indent (Span.mk t.span.start t.span.start t.span.line 1)
                  :: t :: out)
          else if indentLevel < currentIndent then
            let popped := dedentPops stack indentLevel
            if popped.2.head? = some indentLevel then
              (processGo popped.2 false line column2 rest).map
                (fun out =>
                  List.replicate popped.1
                      (Token.mk .dedent
                        (Span.mk t.span.start t.span.start t.span.line 1))
                    ++ t :: out)
            else
              .error ("Indentation error at line " ++ toString t.span.line
                ++ ": inconsistent indentation")
          else
            (processGo stack false line column2 rest).map (fun out => t :: out)
        else
          (processGo stack atLineStart line column2 rest).map (fun out => t :: out)

/- `IndentProcessor::process`, from the initial state `[0]`, line 1,
   column 1, at line start. -/
def process (rawTokens : List Token) : Except String (List Token) :=
  processGo [0] true 1 1 rawTokens

/- Number of INDENT / DEDENT tokens in a stream. -/
def countIndent (ts : List Token) : Nat :=
  ts.countP (fun t => t.tokenType.isIndent)

def countDedent (ts : List Token) : Nat :=
  ts.countP (fun t => t.tokenType.isDedent)

end IndentProcessor

/- ===== Concrete scenarios from the specification (spec §8) ===== -/

/- Scenario E1: contract SimpleStorage with `value: uint256`, a setter
   assigning `self.value = new_value`, and a getter returning `self.value`. -/
def E1setFn : FunctionDecl :=
  { name := "set", decorators := [],
    params := [{ name := "new_value", ty := .simple "uint256", default := none }],
    retTy := none,
    body := [.assign (.attribute (.ident "self") "value") none (.ident "new_value")],
    docstring := none }

def E1getFn : FunctionDecl :=
  { name := "get", decorators := [], params := [],
    retTy := some (.simple "uint256"),
    body := [.ret (some (.attribute (.ident "self") "value"))],
    docstring := none }

def E1contract : ContractDecl :=
  { name := "SimpleStorage", bases := [],
    body := [.stateVar { name := "value", ty := .simple "uint256", initialValue := none },
             .func E1setFn, .func E1getFn],
    docstring := none }

def E1module : Module := { items := [.contractI E1contract] }

def E1layout : EvmCodegen.StorageLayout := EvmCodegen.allocateStorage E1contract.body

/- Scenario E3: contract T with `balances: mapping[address, uint256]` and
   `fn set(k: address, v: uint256): self.balances[k] = v`. -/
def E3setFn : FunctionDecl :=
  { name := "set", decorators := [],
    params := [{ name := "k", ty := .simple "address", default := none },
               { name := "v", ty := .simple "uint256", default := none }],
    retTy := none,
    body := [.assign (.index (.attribute (.ident "self") "balances") (.ident "k"))
               none (.ident "v")],
    docstring := none }

def E3contract : ContractDecl :=
  { name := "T", bases := [],
    body := [.stateVar { name := "balances",
                         ty := .mapping (.simple "address") (.simple "uint256"),
                         initialValue := none },
             .func E3setFn],
    docstring := none }

def E3module : Module := { items := [.contractI E3contract] }

def E3layout : EvmCodegen.StorageLayout := EvmCodegen.allocateStorage E3contract.body

/- Scenario E4: contract T with `owner: address` and an undecorated
   `fn drain(to: address): self.owner = to`; plus the guarded variant with
   `require(msg.sender == self.owner)` prepended. -/
def E4drainFn : FunctionDecl :=
  { name := "drain", decorators := [],
    params := [{ name := "to", ty := .simple "address", default := none }],
    retTy := none,
    body := [.assign (.attribute (.ident "self") "owner") none (.ident "to")],
    docstring := none }

def E4contract : ContractDecl :=
  { name := "T", bases := [],
    body := [.stateVar { name := "owner", ty := .simple "address", initialValue := none },
             .func E4drainFn],
    docstring := none }

def E4module : Module := { items := [.contractI E4contract] }

def E4guardStmt : Stmt :=
  .requireS (.binOp (.attribute (.ident "msg") "sender") .eq
              (.attribute (.ident "self") "owner")) none

def E4guardedContract : ContractDecl :=
  { name := "T", bases := [],
    body := [.stateVar { name := "owner", ty := .simple "address", initialValue := none },
             .func { E4drainFn with body := E4guardStmt :: E4drainFn.body }],
    docstring := none }

def E4guardedModule : Module := { items := [.contractI E4guardedContract] }

/- A contract whose function parameter shadows the state variable `x`
   (for the name-capture behaviour of identifier lowering). -/
def shadowFn : FunctionDecl :=
  { name := "f", decorators := [],
    params := [{ name := "x", ty := .simple "uint256", default := none }],
    retTy := some (.simple "uint256"),
    body := [.ret (some (.ident "x"))],
    docstring := none }

def shadowContract : ContractDecl :=
  { name := "S", bases := [],
    body := [.stateVar { name := "x", ty := .simple "uint256", initialValue := none },
             .func shadowFn],
    docstring := none }

def shadowLayout : EvmCodegen.StorageLayout :=
  EvmCodegen.allocateStorage shadowContract.body

/- A one-token raw stream (a `pass` at column 5) and the cooked stream the
   indentation processor produces for it. -/
def c9WitnessTokens : List Lexer.Token :=
  [Lexer.Token.mk .passKw (Lexer.Span.mk 0 4 1 5)]

def c9WitnessOut : List Lexer.Token :=
  [Lexer.Token.mk .indent (Lexer.Span.mk 0 0 1 1),
   Lexer.Token.mk .passKw (Lexer.Span.mk 0 4 1 5),
   Lexer.Token.mk .dedent (Lexer.Span.mk 0 0 1 1),
   Lexer.Token.mk .eof (Lexer.Span.mk 0 0 1 9)]

/- ===== Supporting lemmas ===== -/

namespace IndentProcessor

open Lexer

theorem except_map_ok {ε α β : Type} (f : α → β) (e : Except ε α) (b : β)
    (h : e.map f = .ok b) : ∃ a, e = .ok a ∧ b = f a := by
  cases e with
  | error err => simp [Except.map] at h
  | ok a => exact ⟨a, rfl, by simpa [Except.map] using h.symm⟩

theorem dedentPops_length (stack : List Nat) (lvl : Nat) :
    (dedentPops stack lvl).1 + (dedentPops stack lvl).2.length = stack.length := by
  induction stack with
  | nil => simp [dedentPops]
  | cons level rest ih =>
      by_cases h : level ≤ lvl
      · simp [dedentPops, h]
      · simp only [dedentPops, if_neg h]
        simp only [List.length_cons]
        omega

theorem countIndent_cons (t : Token) (ts : List Token) :
    countIndent (t :: ts)
      = countIndent ts + (if t.tokenType.isIndent then 1 else 0) := by
  simp [countIndent, List.countP_cons]

theorem countDedent_cons (t : Token) (ts : List Token) :
    countDedent (t :: ts)
      = countDedent ts + (if t.tokenType.isDedent then 1 else 0) := by
  simp [countDedent, List.countP_cons]

theorem countIndent_replicate_dedent (n : Nat) (sp : Span) (rest : List Token) :
    countIndent (List.replicate n (Token.mk .dedent sp) ++ rest)
      = countIndent rest := by
  induction n with
  | zero => simp
  | succ m ih =>
      simp [List.replicate_succ, countIndent_cons, ih, TokenType.isIndent]

theorem countDedent_replicate_dedent (n : Nat) (sp : Span) (rest : List Token) :
    countDedent (List.replicate n (Token.mk .dedent sp) ++ rest)
      = n + countDedent rest := by
  induction n with
  | zero => simp
  | succ m ih =>
      simp [List.replicate_succ, countDedent_cons, ih, TokenType.isDedent]
      omega

/- The balance invariant for the main loop: on a raw stream free of
   synthetic markers, a successful run emits exactly `stack.length - 1`
   more DEDENTs than INDENTs. -/
theorem processGo_balance (toks : List Token) :
    ∀ stack atLineStart line column out,
      stack ≠ [] →
      (∀ t ∈ toks, t.tokenType.isIndent = false ∧ t.tokenType.isDedent = false) →
      processGo stack atLineStart line column toks = .ok out →
      countIndent out + stack.length = countDedent out + 1 := by
  induction toks with
  | nil =>
      intro stack atLineStart line column out hne _ hok
      simp only [processGo, Except.ok.injEq] at hok
      subst hok
      rw [countIndent_replicate_dedent, countDedent_replicate_dedent]
      have h1 : countIndent [Token.mk .eof (Span.mk 0 0 line column)] = 0 := rfl
      have h2 : countDedent [Token.mk .eof (Span.mk 0 0 line column)] = 0 := rfl
      rw [h1, h2]
      have hlen : 1 ≤ stack.length := by
        cases stack with
        | nil => exact absurd rfl hne
        | cons a rest => simp
      omega
  | cons t rest ih =>
      intro stack atLineStart line column out hne hraw hok
      have hrawt := hraw t (by simp)
      have hrawrest : ∀ u ∈ rest,
          u.tokenType.isIndent = false ∧ u.tokenType.isDedent = false := by
        intro u hu
        exact hraw u (by simp [hu])
      simp only [processGo] at hok
      by_cases hnl : t.tokenType.isNewline
      · rw [if_pos hnl] at hok
        obtain ⟨out2, hok2, hout⟩ := except_map_ok _ _ _ hok
        subst hout
        have := ih stack true (line + 1) 1 out2 hne hrawrest hok2
        rw [countIndent_cons, countDedent_cons, hrawt.1, hrawt.2]
        simpa using this
      · rw [if_neg hnl] at hok
        by_cases hstart : atLineStart
        · rw [if_pos hstart] at hok
          by_cases hgt : t.span.column - 1 > stack.headD 0
          · rw [if_pos hgt] at hok
            obtain ⟨out2, hok2, hout⟩ := except_map_ok _ _ _ hok
            subst hout
            have hne2 : ((t.span.column - 1) :: stack) ≠ [] := by simp
            have := ih _ false line _ out2 hne2 hrawrest hok2
            rw [countIndent_cons, countDedent_cons,
              countIndent_cons, countDedent_cons, hrawt.1, hrawt.2]
            simp [TokenType.isIndent, TokenType.isDedent] at this ⊢
            omega
          · rw [if_neg hgt] at hok
            by_cases hlt : t.span.column - 1 < stack.headD 0
            · rw [if_pos hlt] at hok
              by_cases hhead :
                  (dedentPops stack (t.span.column - 1)).2.head?
                    = some (t.span.column - 1)
              · rw [if_pos hhead] at hok
                obtain ⟨out2, hok2, hout⟩ := except_map_ok _ _ _ hok
                subst hout
                have hne2 : (dedentPops stack (t.span.column - 1)).2 ≠ [] := by
                  intro hemp
                  rw [hemp] at hhead
                  simp at hhead
                have := ih _ false line _ out2 hne2 hrawrest hok2
                have hlen := dedentPops_length stack (t.span.column - 1)
                rw [countIndent_replicate_dedent, countDedent_replicate_dedent,
                  countIndent_cons, countDedent_cons, hrawt.1, hrawt.2]
                simp only [if_neg] at this ⊢
                omega
              · rw [if_neg hhead] at hok
                exact absurd hok (by simp)
            · rw [if_neg hlt] at hok
              obtain ⟨out2, hok2, hout⟩ := except_map_ok _ _ _ hok
              subst hout
              have := ih stack false line _ out2 hne hrawrest hok2
              rw [countIndent_cons, countDedent_cons, hrawt.1, hrawt.2]
              simpa using this
        · rw [if_neg hstart] at hok
          obtain ⟨out2, hok2, hout⟩ := except_map_ok _ _ _ hok
          subst hout
          have := ih stack atLineStart line _ out2 hne hrawrest hok2
          rw [countIndent_cons, countDedent_cons, hrawt.1, hrawt.2]
          simpa using this

end IndentProcessor

/- ===== Claim theorems ===== -/

/-- C1: the claim says an assignment whose target is the attribute `self.X`
(X a state variable with slot s) lowers to `sstore(s, value)`; the code
instead has no `Attribute` arm in the `Assign` target match and rejects the
statement with `UnsupportedFeature`, so EVM codegen of the E1 module fails
for every selector/signature hasher. -/
theorem c1_selfattr_assign_rejected :
    (∀ h hev : String → List String → Nat,
      EvmCodegen.generate h hev E1module
        = .error (.unsupportedFeature
            "Assignment target Attribute(Ident(\"self\"), \"value\")")) ∧
    EvmCodegen.generateStatement E1layout []
        (.assign (.attribute (.ident "self") "value") none (.ident "new_value")) 8
      = .error (.unsupportedFeature
          "Assignment target Attribute(Ident(\"self\"), \"value\")") := by
  exact ⟨fun h hev => rfl, rfl⟩

/-- C2: the claim says `self.X` in rvalue position lowers to `sload(s)`; the
`Attribute` arm of `generate_expression` instead returns the bare slot
number, so the E1 getter body becomes `let ret := 0` rather than
`let ret := sload(0)`. -/
theorem c2_selfattr_rvalue_is_slot_literal :
    EvmCodegen.generateExpression E1layout (.attribute (.ident "self") "value")
      = .ok "0" ∧
    EvmCodegen.generateExpression E1layout (.attribute (.ident "self") "value")
      ≠ .ok "sload(0)" ∧
    EvmCodegen.generateStatement E1layout []
        (.ret (some (.attribute (.ident "self") "value"))) 8
      = .ok "        let ret := 0\n        mstore(0, ret)\n        return(0, 32)\n" := by
  refine ⟨rfl, ?_, rfl⟩
  intro h
  have h2 : (Except.ok "0" : Except EvmCodegen.CodegenError String)
      = .ok "sload(0)" := h
  injection h2 with h3
  exact absurd h3 (by decide)

/-- C3: the claim says `!=`, `<=`, `>=` lower to the parenthesis-balanced
`iszero(eq(a, b))`, `iszero(gt(a, b))`, `iszero(lt(a, b))`; the code's
`"{}({}, {})))"` format emits one closing parenthesis too many (two opening,
three closing). The `==`, `<`, `>` cases are as claimed. -/
theorem c3_comparison_lowering_unbalanced :
    EvmCodegen.generateExpression [] (.binOp (.ident "a") .notEq (.ident "b"))
      = .ok "iszero(eq(a, b)))" ∧
    EvmCodegen.generateExpression [] (.binOp (.ident "a") .ltEq (.ident "b"))
      = .ok "iszero(gt(a, b)))" ∧
    EvmCodegen.generateExpression [] (.binOp (.ident "a") .gtEq (.ident "b"))
      = .ok "iszero(lt(a, b)))" ∧
    EvmCodegen.generateExpression [] (.binOp (.ident "a") .eq (.ident "b"))
      = .ok "eq(a, b)" ∧
    EvmCodegen.generateExpression [] (.binOp (.ident "a") .lt (.ident "b"))
      = .ok "lt(a, b)" ∧
    EvmCodegen.generateExpression [] (.binOp (.ident "a") .gt (.ident "b"))
      = .ok "gt(a, b)" ∧
    "iszero(eq(a, b)))".toList.count '(' = 2 ∧
    "iszero(eq(a, b)))".toList.count ')' = 3 := by
  refine ⟨rfl, rfl, rfl, rfl, rfl, rfl, by decide, by decide⟩

/-- C4 (amended): a `return e` carrying a value inside a function that
declares no return type is accepted by the Return branch of
`check_statement` (the value is type-checked and `has_return` is set, but
no TypeMismatch is raised); the claimed TypeMismatch only arises in the
converse case of a bare `return` in a function declaring a return type. -/
theorem c4_return_value_in_void_function_accepted
    (env : Semantics.Env) (ctx : Semantics.FunctionContext) (e : Expr) (t : Ty)
    (hret : ctx.retTy = none)
    (hchk : Semantics.checkExpression env e = .ok t) :
    Semantics.checkReturnStmt env (some ctx) (some e)
      = .ok (some { ctx with hasReturn := true }) := by
  simp [Semantics.checkReturnStmt, hchk, hret]
  rfl

/-- C4 witness: the amended theorem applied to a concrete void function
context and the literal `1`. -/
theorem c4_witness :
    Semantics.checkReturnStmt
        { lookupVar := fun _ => none, fnRetTy := fun _ => none }
        (some { name := "f", retTy := none, hasReturn := false })
        (some (.intLiteral "1"))
      = .ok (some { name := "f", retTy := none, hasReturn := true }) :=
  c4_return_value_in_void_function_accepted
    { lookupVar := fun _ => none, fnRetTy := fun _ => none }
    { name := "f", retTy := none, hasReturn := false }
    (.intLiteral "1") (.simple "uint256") rfl rfl

/-- C4 counterexample: semantic analysis of `return 1` inside a function
with no declared return type succeeds (no TypeMismatch), refuting the claim
as stated. -/
theorem c4_counterexample :
    Semantics.checkReturnStmt
        { lookupVar := fun _ => none, fnRetTy := fun _ => none }
        (some { name := "g", retTy := none, hasReturn := false })
        (some (.intLiteral "7"))
      = .ok (some { name := "g", retTy := none, hasReturn := true }) := rfl

/-- C5 (amended): `types_compatible` has no case for the `unknown`
sentinel, so `Simple("unknown")` is compatible with a type iff that type is
`Simple("unknown")` itself, in both argument positions; the claimed
bi-compatibility with every type fails. -/
theorem typesCompatible_simple_eq (a b : String) :
    TypeChecker.typesCompatible (.simple a) (.simple b)
      = (if a == b then true
         else if TypeChecker.isNumericType a && TypeChecker.isNumericType b
         then TypeChecker.canPromote b a else false) := rfl

theorem c5_unknown_only_compatible_with_itself (t : Ty) :
    (TypeChecker.typesCompatible (.simple "unknown") t = true
      ↔ t = .simple "unknown") ∧
    (TypeChecker.typesCompatible t (.simple "unknown") = true
      ↔ t = .simple "unknown") := by
  cases t with
  | simple s =>
      have hu : TypeChecker.isNumericType "unknown" = false := rfl
      by_cases h : s = "unknown"
      · subst h
        constructor <;> constructor <;> intro _ <;> rfl
      · have hb1 : ("unknown" == s) = false := by
          apply beq_eq_false_iff_ne.mpr
          exact fun hh => h hh.symm
        have hb2 : (s == "unknown") = false := beq_eq_false_iff_ne.mpr h
        constructor
        · rw [typesCompatible_simple_eq, hu, hb1]
          simp [h]
        · rw [typesCompatible_simple_eq, hu, hb2]
          simp [h]
  | list t =>
      exact ⟨⟨fun h => (nomatch h), fun h => (nomatch h)⟩,
             ⟨fun h => (nomatch h), fun h => (nomatch h)⟩⟩
  | fixedArray t n =>
      exact ⟨⟨fun h => (nomatch h), fun h => (nomatch h)⟩,
             ⟨fun h => (nomatch h), fun h => (nomatch h)⟩⟩
  | mapping k v =>
      exact ⟨⟨fun h => (nomatch h), fun h => (nomatch h)⟩,
             ⟨fun h => (nomatch h), fun h => (nomatch h)⟩⟩
  | optionalTy t =>
      exact ⟨⟨fun h => (nomatch h), fun h => (nomatch h)⟩,
             ⟨fun h => (nomatch h), fun h => (nomatch h)⟩⟩
  | tuple ts =>
      exact ⟨⟨fun h => (nomatch h), fun h => (nomatch h)⟩,
             ⟨fun h => (nomatch h), fun h => (nomatch h)⟩⟩

/-- C5 counterexample: `types_compatible(Simple("unknown"), Simple("bool"))`
and the reverse are both false, refuting the claim as stated. -/
theorem c5_counterexample :
    TypeChecker.typesCompatible (.simple "unknown") (.simple "bool") = false ∧
    TypeChecker.typesCompatible (.simple "bool") (.simple "unknown") = false :=
  ⟨rfl, rfl⟩

/-- C6 (amended): for simple integer types, `types_compatible(expected,
found)` holds iff width(found) ≤ width(expected), with signedness ignored
(`can_promote` compares widths only); the same-signed `A ≤ B` rule is the
special case, and cross-signed pairs are also compatible under the same
width rule, refuting "never compatible". -/
theorem c6_numeric_promotion_ignores_signedness (a b : String)
    (ha : TypeChecker.isNumericType a = true)
    (hb : TypeChecker.isNumericType b = true) :
    TypeChecker.typesCompatible (.simple a) (.simple b)
      = decide (TypeChecker.getTypeSize b ≤ TypeChecker.getTypeSize a) := by
  by_cases h : a = b
  · subst h
    simp [TypeChecker.typesCompatible]
  · have hne : (a == b) = false := by
      simp [h]
    simp [TypeChecker.typesCompatible, hne, ha, hb, TypeChecker.canPromote]

/-- C6 witness: the amended theorem applied to `uint16`/`uint8`. -/
theorem c6_witness :
    TypeChecker.typesCompatible (.simple "uint16") (.simple "uint8")
      = decide (TypeChecker.getTypeSize "uint8" ≤ TypeChecker.getTypeSize "uint16") :=
  c6_numeric_promotion_ignores_signedness "uint16" "uint8" rfl rfl

/-- C6 counterexample: `uint8` and `int8` are compatible in both directions
(widths equal, signedness ignored), refuting "a uintA and an intB are never
compatible in either direction". -/
theorem c6_counterexample :
    TypeChecker.typesCompatible (.simple "uint8") (.simple "int8") = true ∧
    TypeChecker.typesCompatible (.simple "int8") (.simple "uint8") = true :=
  ⟨rfl, rfl⟩

/-- C7: security analysis of the E4 module yields exactly one warning, a
MissingAccessControl for `drain`; prepending
`require(msg.sender == self.owner)` to `drain` leaves no warnings at all. -/
theorem c7_access_control_warning :
    SecurityAnalyzer.analyze E4module
      = [.missingAccessControl "drain"
          "Function modifies state without checking msg.sender"] ∧
    SecurityAnalyzer.analyze E4guardedModule = [] :=
  ⟨rfl, rfl⟩

/-- C8: EVM codegen succeeds on the E3 module for every selector/signature
hasher, and the `set` function body emits, in order, `mstore(0, k)`,
`mstore(32, 0)`, `sstore(keccak256(0, 64), v)`, with base slot 0 for
`balances`. -/
theorem c8_mapping_store_lowering :
    (∀ h hev : String → List String → Nat,
      ∃ yul, EvmCodegen.generate h hev E3module = .ok yul) ∧
    EvmCodegen.generateFunctions E3layout [] E3contract.body
      = .ok ("      function set() \x7b\n"
          ++ "        let k := calldataload(4)\n"
          ++ "        let v := calldataload(36)\n\n"
          ++ "        mstore(0, k)\n"
          ++ "        mstore(32, 0)\n"
          ++ "        sstore(keccak256(0, 64), v)\n"
          ++ "      \x7d\n\n") := by
  refine ⟨fun h hev => ⟨_, rfl⟩, rfl⟩

/-- C10: a bare identifier is resolved against the storage layout by name
alone: in rvalue position it lowers to `sload(slot)` and as an assignment
target to `sstore(slot, …)`, even though parameters of the same name were
loaded from calldata into Yul locals; in the concrete contract with state
var `x` and `fn f(x: uint256): return x`, the emitted function loads
`let x := calldataload(4)` but returns `sload(0)`. -/
theorem c10_state_name_shadows_locals
    (layout : EvmCodegen.StorageLayout) (name : String) (slot : Nat)
    (v : Expr) (vc : String) (ind : Nat)
    (hslot : EvmCodegen.layoutGet layout name = some slot)
    (hv : EvmCodegen.generateExpression layout v = .ok vc) :
    EvmCodegen.generateExpression layout (.ident name)
      = .ok ("sload(" ++ toString slot ++ ")") ∧
    EvmCodegen.generateStatement layout [] (.assign (.ident name) none v) ind
      = .ok (EvmCodegen.spaces ind ++ "sstore(" ++ toString slot ++ ", "
          ++ vc ++ ")\n") ∧
    EvmCodegen.generateFunctions shadowLayout [] shadowContract.body
      = .ok ("      function f() \x7b\n"
          ++ "        let x := calldataload(4)\n\n"
          ++ "        let ret := sload(0)\n"
          ++ "        mstore(0, ret)\n"
          ++ "        return(0, 32)\n"
          ++ "      \x7d\n\n") := by
  refine ⟨?_, ?_, rfl⟩
  · simp [EvmCodegen.generateExpression, hslot]
  · simp [EvmCodegen.generateStatement, hv, hslot]
    rfl

/-- C10 witness: the general statement applied to the one-entry layout
`x ↦ 0`, value literal `7`, indent 8. -/
theorem c10_witness :
    EvmCodegen.generateExpression [("x", 0)] (.ident "x")
      = .ok ("sload(" ++ toString 0 ++ ")") ∧
    EvmCodegen.generateStatement [("x", 0)] []
        (.assign (.ident "x") none (.intLiteral "7")) 8
      = .ok (EvmCodegen.spaces 8 ++ "sstore(" ++ toString 0 ++ ", "
          ++ "7" ++ ")\n") ∧
    EvmCodegen.generateFunctions shadowLayout [] shadowContract.body
      = .ok ("      function f() \x7b\n"
          ++ "        let x := calldataload(4)\n\n"
          ++ "        let ret := sload(0)\n"
          ++ "        mstore(0, ret)\n"
          ++ "        return(0, 32)\n"
          ++ "      \x7d\n\n") :=
  c10_state_name_shadows_locals [("x", 0)] "x" 0 (.intLiteral "7") "7" 8 rfl rfl

/-- C9: on every raw token stream free of synthetic INDENT/DEDENT markers on
which the indentation processor succeeds, the output contains exactly as
many INDENT tokens as DEDENT tokens. -/
theorem c9_indent_dedent_balance (rawTokens out : List Lexer.Token)
    (hraw : ∀ t ∈ rawTokens,
      t.tokenType.isIndent = false ∧ t.tokenType.isDedent = false)
    (hok : IndentProcessor.process rawTokens = .ok out) :
    IndentProcessor.countIndent out = IndentProcessor.countDedent out := by
  have h := IndentProcessor.processGo_balance rawTokens [0] true 1 1 out
    (by simp) hraw hok
  simpa using h

/-- C9 witness: the balance theorem applied to a concrete one-token raw
stream (a `pass` at column 5), whose cooked output is INDENT, pass, DEDENT,
EOF. -/
theorem c9_witness :
    IndentProcessor.process c9WitnessTokens = .ok c9WitnessOut ∧
    IndentProcessor.countIndent c9WitnessOut
      = IndentProcessor.countDedent c9WitnessOut :=
  ⟨rfl, c9_indent_dedent_balance c9WitnessTokens c9WitnessOut (by decide) rfl⟩

end Quorlin
